import Mathlib

/-
Shallow embedding of the TIDL API execution engine (tidl-api repository):
Device / Kernel (src/tidl_api/src/ocl_device.cpp) and
Executor / ExecutorImpl / Exception (src/unnamed/part_000, the executor
implementation file).

The OpenCL runtime underneath is external to the repository; every call into
it is modelled by an environment record carrying the error code the call
would return and the data it would produce.  Control flow (which calls are
made, in which order, which results are checked and how failures are
reported) is translated directly from the source.
-/

set_option autoImplicit false

namespace tidl

/-- tidl Exception (part_000 lines 205-249): carries only a message string
built from the error, source file, function and line. -/
structure Exception where
  message_m : String
deriving DecidableEq, Repr

/-- Result of running a piece of host-side engine code.  Besides returning a
value, the C++ code can throw a tidl Exception, let a C++ standard-library
exception escape, call exit() (done by errorCheck on any failing OpenCL call)
or abort on a failed assert. -/
inductive Outcome (α : Type) where
  | ok (a : α)
  | thrown (e : Exception)
  | stdThrown (what : String)
  | exited (code : Int)
  | aborted
deriving DecidableEq, Repr

def Outcome.bind {α β : Type} : Outcome α → (α → Outcome β) → Outcome β
  | .ok a, f => f a
  | .thrown e, _ => .thrown e
  | .stdThrown w, _ => .stdThrown w
  | .exited c, _ => .exited c
  | .aborted, _ => .aborted

def CL_SUCCESS : Int := 0

/-- errorCheck (ocl_device.cpp lines 425-432): on any OpenCL return code other
than CL_SUCCESS it prints the error and calls exit(ret); it never throws. -/
def errorCheck (ret : Int) : Outcome Unit :=
  if ret = CL_SUCCESS then .ok () else .exited ret

/-- The "TIDL Error: [file, func, line]: " message head produced by both
Exception constructors (part_000 lines 209-216 and 222-228). -/
def locationText (file func : String) (line_no : Nat) : String :=
  "TIDL Error: [" ++ file ++ ", " ++ func ++ ", " ++ toString line_no ++ "]: "

/-- Exception::Exception(error, file, func, line_no) (part_000 lines 205-217). -/
def Exception.ofString (error file func : String) (line_no : Nat) : Exception :=
  { message_m := locationText file func line_no ++ error }

/-- OCL_TIDL device error codes.  Their defining header is not under src/;
only their distinctness and OCL_TIDL_SUCCESS being the zero success code
matter to the control flow translated here, so they are modelled as distinct
small integers. -/
def OCL_TIDL_SUCCESS : Int := 0

def OCL_TIDL_ERROR : Int := 1

def OCL_TIDL_ALLOC_FAIL : Int := 2

def OCL_TIDL_MEMREC_ALLOC_FAIL : Int := 3

def OCL_TIDL_PROCESS_FAIL : Int := 4

def OCL_TIDL_CREATE_PARAMS_MISMATCH : Int := 5

/-- The per-code message suffix chosen by Exception::Exception(errorCode, ...)
(part_000 lines 230-243).  The mismatch text reproduces the source literal,
including its missing space between "host" and "and". -/
def errorCodeText (errorCode : Int) : String :=
  if errorCode = OCL_TIDL_ERROR then ""
  else if errorCode = OCL_TIDL_ALLOC_FAIL then "Allocation failed on device"
  else if errorCode = OCL_TIDL_MEMREC_ALLOC_FAIL then
    "Memrec allocation failed on device"
  else if errorCode = OCL_TIDL_PROCESS_FAIL then "Process call failed on device"
  else if errorCode = OCL_TIDL_CREATE_PARAMS_MISMATCH then
    "TIDL_CreateParams definition inconsistent across hostand device."
  else toString errorCode

/-- Exception::Exception(errorCode, file, func, line_no) (part_000
lines 219-244). -/
def Exception.ofCode (errorCode : Int) (file func : String) (line_no : Nat) :
    Exception :=
  { message_m := locationText file func line_no ++ errorCodeText errorCode }

/-- tidl::internal::NUM_CONTEXTS, the size of the per-kernel in-flight
completion-handle array (its defining header is not under src/; the spec calls
it "N = max concurrent contexts"; the value is immaterial to the claims). -/
def NUM_CONTEXTS : Nat := 2

/-- MAX_DEVICES, the size of the per-device queue array (defining header not
under src/; executor.h enumerates DeviceId ID0..ID3, so 4). -/
def MAX_DEVICES : Nat := 4

/-- A completion handle (cl_event), opaque to the host code. -/
abbrev ClEvent := Nat

/-- Kernel (ocl_device.cpp): the part of its state the enqueue/wait contract
depends on, the event_m array of in-flight completion handles indexed by
context slot. -/
structure Kernel where
  event_m : List (Option ClEvent)
deriving DecidableEq, Repr

/-- Kernel constructor effect on event_m (ocl_device.cpp lines 272-273): all
NUM_CONTEXTS slots start as nullptr. -/
def Kernel.init : Kernel :=
  { event_m := List.replicate NUM_CONTEXTS none }

/-- Environment for one Kernel::RunAsync call: the error code clEnqueueTask
returns and the completion handle it writes. -/
structure RunEnv where
  enqueueErr : Int
  event : ClEvent
deriving DecidableEq, Repr

/-- Environment for one Kernel::Wait call on a populated slot: the error codes
of clWaitForEvents and clReleaseEvent. -/
structure WaitEnv where
  waitErr : Int
  releaseErr : Int
deriving DecidableEq, Repr

/-- Kernel::RunAsync(context_idx) (ocl_device.cpp lines 316-326): enqueues the
kernel, storing the completion handle at event_m[context_idx], and errorChecks
the enqueue. -/
def Kernel.RunAsync (k : Kernel) (env : RunEnv) (context_idx : Nat) :
    Outcome Kernel :=
  let k2 : Kernel := { event_m := k.event_m.set context_idx (some env.event) }
  Outcome.bind (errorCheck env.enqueueErr) (fun _ => .ok k2)

/-- Kernel::Wait(context_idx) (ocl_device.cpp lines 328-345): if
event_m[context_idx] is nullptr it returns false at once, touching nothing;
otherwise it waits on the event (errorChecked), releases it (errorChecked),
resets the slot to nullptr and returns true. -/
def Kernel.Wait (k : Kernel) (env : WaitEnv) (context_idx : Nat) :
    Outcome (Bool × Kernel) :=
  match k.event_m.getD context_idx none with
  | none => .ok (false, k)
  | some _ =>
      Outcome.bind (errorCheck env.waitErr) (fun _ =>
      Outcome.bind (errorCheck env.releaseErr) (fun _ =>
      .ok (true, { event_m := k.event_m.set context_idx none })))

/-- Kernel::AddCallback(user_data, context_idx) (ocl_device.cpp lines
356-363): returns false when the slot holds no completion handle, else
registers the callback and reports whether registration succeeded. -/
def Kernel.AddCallback (k : Kernel) (setCallbackErr : Int)
    (context_idx : Nat) : Bool :=
  match k.event_m.getD context_idx none with
  | none => false
  | some _ => setCallbackErr = CL_SUCCESS

/-- A host pointer.  inCMEM models __is_in_malloced_region(ptr), i.e. whether
the pointed-to memory is in the device-visible (CMEM) region — a property of
the address in the running system, carried on the pointer here. -/
structure HostPtr where
  addr : Nat
  inCMEM : Bool
deriving DecidableEq, Repr

/-- DeviceArgInfo as consumed by Device::CreateBuffer: a nullable host pointer
and a byte size. -/
structure DeviceArgInfo where
  ptr : Option HostPtr
  size : Nat
deriving DecidableEq, Repr

/-- The host-pointer binding mode CreateBuffer picks (ocl_device.cpp lines
387-390): CL_MEM_USE_HOST_PTR (zero copy) or CL_MEM_COPY_HOST_PTR. -/
inductive MemBinding where
  | useHostPtr
  | copyHostPtr
deriving DecidableEq, Repr

/-- The cl_mem object clCreateBuffer produces, with the binding mode it was
created with. -/
structure ClBuffer where
  binding : MemBinding
  size : Nat
  host : HostPtr
deriving DecidableEq, Repr

/-- Device::CreateBuffer(Arg) (ocl_device.cpp lines 373-403): a null host
pointer yields a nullptr handle without touching OpenCL; otherwise the buffer
is created with CL_MEM_USE_HOST_PTR when the pointer is in the CMEM region and
CL_MEM_COPY_HOST_PTR otherwise (the choice is computed internally; the
function takes no policy argument), and the clCreateBuffer result is
errorChecked. -/
def Device.CreateBuffer (arg : DeviceArgInfo) (createBufferErr : Int) :
    Outcome (Option ClBuffer) :=
  match arg.ptr with
  | none => .ok none
  | some host_ptr =>
      let flag := if host_ptr.inCMEM then MemBinding.useHostPtr
                  else MemBinding.copyHostPtr
      Outcome.bind (errorCheck createBufferErr) (fun _ =>
        .ok (some { binding := flag, size := arg.size, host := host_ptr }))

/-- Build-time version macros _BUILD_VER and _BUILD_SHA (substituted by the
build system; their values are immaterial, only how GetAPIVersion combines
them matters). -/
def BUILD_VER : String := "01.01.00.00"

def BUILD_SHA : String := "a1b2c3d"

/-- Executor::GetAPIVersion (part_000 lines 39-45).  The function-local static
string is initialized to _BUILD_VER the first time the function runs, but the
two += statements execute on every call: each call appends "." followed by
_BUILD_SHA to the static and returns its new value.  Modelled as explicit
state passing: given the static string's current value, the call returns
(returned string, static string after the call). -/
def Executor.GetAPIVersion (staticVersion : String) : String × String :=
  let v := staticVersion ++ "." ++ BUILD_SHA
  (v, v)

/-- First index at which pat occurs in s (std::string::find; none = npos). -/
def findSub (s pat : List Char) : Option Nat :=
  match s with
  | [] => if pat = [] then some 0 else none
  | _ :: rest =>
      if pat.isPrefixOf s then some 0
      else (findSub rest pat).map (· + 1)

/-- std::string::find over Lean strings, none standing for npos. -/
def strFind (v pat : String) : Option Nat :=
  findSub v.toList pat.toList

/-- The what() text of the std::out_of_range that std::string::substr throws
(libstdc++ wording; the exact text is immaterial). -/
def substrOutOfRangeWhat : String := "basic_string::substr: __pos > this->size()"

/-- The substring CheckOpenCLVersion anchors the version comparison on. -/
def versionAnchor : String := "01."

/-- The substring PlatformIsAM57 looks for in the platform name. -/
def platformNameAM57 : String := "AM57"

/-- std::string::substr(pos, count): throws std::out_of_range when pos is past
the end of the string — in particular when pos is npos, the result of a failed
find. -/
def substrCpp (v : String) (posFound : Option Nat) (count : Nat) :
    Outcome String :=
  match posFound with
  | none => .stdThrown substrOutOfRangeWhat
  | some pos =>
      if v.length < pos then .stdThrown substrOutOfRangeWhat
      else .ok (String.mk ((v.toList.drop pos).take count))

/-- C++ std::string operator>=: lexicographic comparison on character
values. -/
def lexGeChars : List Char → List Char → Bool
  | [], [] => true
  | [], _ :: _ => false
  | _ :: _, [] => true
  | a :: as, b :: bs =>
      if b.toNat < a.toNat then true
      else if a.toNat < b.toNat then false
      else lexGeChars as bs

/-- MIN_OCL_VERSION (ocl_device.cpp line 504); sizeof(MIN_OCL_VERSION) = 12
(eleven characters plus the terminating NUL). -/
def MIN_OCL_VERSION : String := "01.01.17.00"

def sizeofMIN_OCL_VERSION : Nat := 12

/-- Environment for the platform queries made by PlatformIsAM57 and
CheckOpenCLVersion (ocl_device.cpp lines 505-555): error codes of
clGetPlatformIDs and of the four clGetPlatformInfo calls, and the version and
name strings the platform reports. -/
structure PlatformEnv where
  getPlatformIDsErr : Int
  versionLenErr : Int
  versionGetErr : Int
  platformVersion : String
  nameLenErr : Int
  nameGetErr : Int
  platformName : String
deriving DecidableEq, Repr

/-- CheckOpenCLVersion(id) (ocl_device.cpp lines 505-526): returns false when
either CL_PLATFORM_VERSION query fails, else compares
v.substr(v.find("01."), sizeof(MIN_OCL_VERSION)) >= MIN_OCL_VERSION.  When the
version string does not contain "01.", find yields npos and substr throws
std::out_of_range. -/
def CheckOpenCLVersion (env : PlatformEnv) : Outcome Bool :=
  if env.versionLenErr ≠ CL_SUCCESS then .ok false
  else if env.versionGetErr ≠ CL_SUCCESS then .ok false
  else
    Outcome.bind (substrCpp env.platformVersion
        (strFind env.platformVersion versionAnchor) sizeofMIN_OCL_VERSION) (fun sub =>
      .ok (lexGeChars sub.toList MIN_OCL_VERSION.toList))

/-- PlatformIsAM57 (ocl_device.cpp lines 528-555): false when clGetPlatformIDs
fails, when the OpenCL version check fails, when either CL_PLATFORM_NAME query
fails, or when the platform name does not contain "AM57". -/
def PlatformIsAM57 (env : PlatformEnv) : Outcome Bool :=
  if env.getPlatformIDsErr ≠ CL_SUCCESS then .ok false
  else
    Outcome.bind (CheckOpenCLVersion env) (fun vok =>
      if !vok then .ok false
      else if env.nameLenErr ≠ CL_SUCCESS then .ok false
      else if env.nameGetErr ≠ CL_SUCCESS then .ok false
      else .ok ((strFind env.platformName platformNameAM57).isSome))

/-- One of the two supported device classes (executor.h lines 46-48). -/
inductive DeviceType where
  | DSP
  | EVE
deriving DecidableEq, Repr

/-- Environment for the device enumeration made by Device::GetNumDevices:
clGetDeviceIDs error and count, and the CL_DEVICE_MAX_COMPUTE_UNITS query
error and value used on the DSP path. -/
structure QueryEnv where
  getDeviceIDsErr : Int
  num_devices_found : Nat
  deviceInfoErr : Int
  num_compute_units : Nat
deriving DecidableEq, Repr

/-- Device::GetNumDevices(device_type) (ocl_device.cpp lines 558-599): 0 when
the platform is not a suitable AM57, when device enumeration fails or finds
nothing; for DSP the number of compute units (0 when that query fails), for
EVE the number of devices found. -/
def Device.GetNumDevices (penv : PlatformEnv) (env : QueryEnv)
    (device_type : DeviceType) : Outcome Nat :=
  Outcome.bind (PlatformIsAM57 penv) (fun am57 =>
  if !am57 then .ok 0
  else if env.getDeviceIDsErr ≠ CL_SUCCESS then .ok 0
  else if env.num_devices_found = 0 then .ok 0
  else
    match device_type with
    | .DSP =>
        if env.deviceInfoErr ≠ CL_SUCCESS then .ok 0
        else .ok env.num_compute_units
    | .EVE => .ok env.num_devices_found)

/-- A platform whose OpenCL version string does not contain "01." (any
non-TI OpenCL implementation, e.g. a desktop reporting "OpenCL 1.2"), with
every platform query succeeding. -/
def desktopPlatform : PlatformEnv :=
  { getPlatformIDsErr := 0, versionLenErr := 0, versionGetErr := 0,
    platformVersion := "OpenCL 1.2", nameLenErr := 0, nameGetErr := 0,
    platformName := "Some Desktop Platform" }

/-- The device-layer source file name, used as the __FILE__ argument of the
Exceptions it throws. -/
def OCL_DEVICE_FILE : String := "ocl_device.cpp"

/-- The message of the Exception DspDevice::DspDevice throws when the device
count is not 1 (ocl_device.cpp line 72). -/
def dspNotFoundError : String := "OpenCL DSP device not found"

def FUNC_DspDevice : String := "DspDevice"

/-- What a command queue is attached to: a whole physical device (index into
the enumerated device list) or a sub-device partitioned out of physical
device 0 (DSP multi-compute-unit path). -/
inductive QueueTarget where
  | device (idx : Nat)
  | subDevice (idx : Nat)
deriving DecidableEq, Repr

/-- A cl_command_queue: records the context it was created in and the device
it drains. -/
structure CommandQueue where
  context : Nat
  target : QueueTarget
deriving DecidableEq, Repr

/-- Device state: the shared context and the queue_m array of MAX_DEVICES
entries, nulled by the Device base constructor (ocl_device.cpp lines 53-54). -/
structure DeviceState where
  context_m : Nat
  queue_m : List (Option CommandQueue)
deriving DecidableEq, Repr

def emptyQueues : List (Option CommandQueue) := List.replicate MAX_DEVICES none

/-- Environment for device construction: error codes of each OpenCL call made
by the DspDevice / EveDevice constructors, the reported device count and
compute-unit count, the sub-device count the partition query reports, and the
id of the context clCreateContext produces. -/
structure DevEnv where
  getDeviceIDsErr : Int
  num_devices_found : Nat
  num_compute_units : Nat
  createContextErr : Int
  createQueueErr : Int
  subDevQueryErr : Int
  n_sub_devices : Nat
  createSubDevErr : Int
  createProgramErr : Int
  buildProgramErr : Int
  freqErr : Int
  contextId : Nat
deriving DecidableEq, Repr

/-- All OpenCL calls of device construction succeed. -/
def DevEnv.clean (env : DevEnv) : Prop :=
  env.getDeviceIDsErr = CL_SUCCESS ∧ env.createContextErr = CL_SUCCESS ∧
  env.createQueueErr = CL_SUCCESS ∧ env.subDevQueryErr = CL_SUCCESS ∧
  env.createSubDevErr = CL_SUCCESS ∧ env.createProgramErr = CL_SUCCESS ∧
  env.buildProgramErr = CL_SUCCESS ∧ env.freqErr = CL_SUCCESS

/-- Pure effect of the queue-creation loops (ocl_device.cpp lines 137-145 and
185-194): for each requested id, store a queue on target(id) at queue_m[id]. -/
def setQueues (ids : List Nat) (ctx : Nat) (target : Nat → QueueTarget)
    (qs : List (Option CommandQueue)) : List (Option CommandQueue) :=
  match ids with
  | [] => qs
  | id :: rest => setQueues rest ctx target (qs.set id (some ⟨ctx, target id⟩))

/-- The queue-creation loops with their per-iteration errorCheck of
clCreateCommandQueue. -/
def createQueues (ids : List Nat) (ctx : Nat) (target : Nat → QueueTarget)
    (createQueueErr : Int) (qs : List (Option CommandQueue)) :
    Outcome (List (Option CommandQueue)) :=
  match ids with
  | [] => .ok qs
  | id :: rest =>
      Outcome.bind (errorCheck createQueueErr) (fun _ =>
        createQueues rest ctx target createQueueErr
          (qs.set id (some ⟨ctx, target id⟩)))

/-- DspDevice::BuildProgramFromBinary (ocl_device.cpp lines 207-240):
clCreateProgramWithBinary then clBuildProgram, both errorChecked (an OpenCL
build failure therefore exits the process). -/
def DspDevice.BuildProgramFromBinary (env : DevEnv) : Outcome Bool :=
  Outcome.bind (errorCheck env.createProgramErr) (fun _ =>
  Outcome.bind (errorCheck env.buildProgramErr) (fun _ => .ok true))

/-- EveDevice::BuildProgramFromBinary (ocl_device.cpp lines 242-261):
clCreateProgramWithBuiltInKernels, errorChecked. -/
def EveDevice.BuildProgramFromBinary (env : DevEnv) : Outcome Bool :=
  Outcome.bind (errorCheck env.createProgramErr) (fun _ => .ok true)

/-- DspDevice::DspDevice (ocl_device.cpp lines 58-156).  Enumerates DSP
devices (errorChecked), throws "OpenCL DSP device not found" unless exactly
one is found, queries the compute-unit count (its error code is not checked in
the source).  With one compute unit: one context and a single queue 0 on
device 0, then the program build.  With several: a partition query
(errorChecked) whose result must be 2 (assert), sub-device creation, a context
over the sub-devices and one queue per requested id on sub-device id, then the
program build.  Finally the clock-frequency query, errorChecked. -/
def DspDevice.construct (device_ids : List Nat) (env : DevEnv) :
    Outcome DeviceState :=
  Outcome.bind (errorCheck env.getDeviceIDsErr) (fun _ =>
  if env.num_devices_found ≠ 1 then
    .thrown (Exception.ofString dspNotFoundError OCL_DEVICE_FILE
               FUNC_DspDevice 72)
  else if env.num_compute_units = 1 then
    Outcome.bind (errorCheck env.createContextErr) (fun _ =>
    Outcome.bind (errorCheck env.createQueueErr) (fun _ =>
    Outcome.bind (DspDevice.BuildProgramFromBinary env) (fun _ =>
    Outcome.bind (errorCheck env.freqErr) (fun _ =>
    .ok { context_m := env.contextId,
          queue_m := emptyQueues.set 0
                       (some ⟨env.contextId, QueueTarget.device 0⟩) }))))
  else
    Outcome.bind (errorCheck env.subDevQueryErr) (fun _ =>
    if env.n_sub_devices ≠ 2 then .aborted
    else
    Outcome.bind (errorCheck env.createSubDevErr) (fun _ =>
    Outcome.bind (errorCheck env.createContextErr) (fun _ =>
    Outcome.bind (createQueues device_ids env.contextId QueueTarget.subDevice
                    env.createQueueErr emptyQueues) (fun qs =>
    Outcome.bind (DspDevice.BuildProgramFromBinary env) (fun _ =>
    Outcome.bind (errorCheck env.freqErr) (fun _ =>
    .ok { context_m := env.contextId, queue_m := qs })))))))

/-- EveDevice::EveDevice (ocl_device.cpp lines 159-204).  Enumerates EVE
devices (errorChecked), asserts at least as many devices as requested ids,
creates one shared context and, for each requested id, one out-of-order queue
on physical device id; then loads the built-in kernels and queries the clock
frequency (errorChecked). -/
def EveDevice.construct (device_ids : List Nat) (env : DevEnv) :
    Outcome DeviceState :=
  Outcome.bind (errorCheck env.getDeviceIDsErr) (fun _ =>
  if env.num_devices_found < device_ids.length then .aborted
  else
  Outcome.bind (errorCheck env.createContextErr) (fun _ =>
  Outcome.bind (createQueues device_ids env.contextId QueueTarget.device
                  env.createQueueErr emptyQueues) (fun qs =>
  Outcome.bind (EveDevice.BuildProgramFromBinary env) (fun _ =>
  Outcome.bind (errorCheck env.freqErr) (fun _ =>
  .ok { context_m := env.contextId, queue_m := qs })))))

/-- Device::Create (ocl_device.cpp lines 491-501): dispatch on the device
class. -/
def Device.Create (core_type : DeviceType) (ids : List Nat) (env : DevEnv) :
    Outcome DeviceState :=
  match core_type with
  | .DSP => DspDevice.construct ids env
  | .EVE => EveDevice.construct ids env

/-- The executor implementation file (src/unnamed/part_000; its on-disk name
is not recorded, upstream it is executor.cpp). Used as the __FILE__ argument
of the Exceptions it throws; the value is immaterial. -/
def EXECUTOR_FILE : String := "executor.cpp"

def FUNC_InitNetworkParams : String := "InitializeNetworkParams"

def FUNC_Wait : String := "Wait"

/-- Environment for ExecutorImpl::InitializeNetworkParams (part_000 lines
128-177): whether ReadBinary(paramsBinFile) succeeds (assert aborts
otherwise), the error codes of the OpenCL calls made while building and
running the setup kernel (clCreateKernel, the buffer creations for its four
arguments, clEnqueueTask, clWaitForEvents/clReleaseEvent), and the errorCode
field the device-side setup writes into setupParams. -/
structure SetupEnv where
  readParamsOk : Bool
  createKernelErr : Int
  createBufferErr : Int
  enqueueErr : Int
  waitErr : Int
  releaseErr : Int
  errorCode : Int
deriving DecidableEq, Repr

/-- ExecutorImpl::InitializeNetworkParams (part_000 lines 128-177): reads the
weights blob (assert), builds the setup kernel, RunAsync + Wait on it (context
slot 0), then throws Exception(setupParams->errorCode, __FILE__, __FUNCTION__,
__LINE__) if the device reported a nonzero error code, else returns. -/
def ExecutorImpl.InitializeNetworkParams (env : SetupEnv) : Outcome Unit :=
  if !env.readParamsOk then .aborted
  else
    Outcome.bind (errorCheck env.createKernelErr) (fun _ =>
    Outcome.bind (errorCheck env.createBufferErr) (fun _ =>
    Outcome.bind (Kernel.RunAsync Kernel.init ⟨env.enqueueErr, 1⟩ 0) (fun k1 =>
    Outcome.bind (Kernel.Wait k1 ⟨env.waitErr, env.releaseErr⟩ 0) (fun _ =>
    if env.errorCode ≠ OCL_TIDL_SUCCESS then
      .thrown (Exception.ofCode env.errorCode EXECUTOR_FILE
                 FUNC_InitNetworkParams 173)
    else .ok ()))))

/-- The TIDL_DataLayer layer-type code (its defining header is not under src/;
only that it is one distinguished value matters). -/
def TIDL_DataLayer : Nat := 0

/-- One entry of the network's layer table (sTIDL_Network_t::TIDLLayers),
restricted to the two fields the executor touches. -/
structure TIDLLayer where
  layerType : Nat
  layersGroupId : Int
deriving DecidableEq, Repr

/-- The runFullNet override loop in ExecutorImpl::Initialize (part_000 lines
92-98): when enabled, every layer whose layerType is not TIDL_DataLayer gets
its layersGroupId set to the executor's layers_group_id_m; data layers, and
everything when disabled, are untouched. -/
def forceFullNet (runFullNet : Bool) (layers_group_id : Int)
    (layers : List TIDLLayer) : List TIDLLayer :=
  if runFullNet then
    layers.map (fun l =>
      if l.layerType ≠ TIDL_DataLayer then
        { l with layersGroupId := layers_group_id }
      else l)
  else layers

/-- The slice of Configuration the modelled control flow depends on. -/
structure Configuration where
  runFullNet : Bool
deriving DecidableEq, Repr

/-- Modelled from the spec: ExecutionObject internals.  execution_object.cpp
is not under src/ (only inc/execution_object.h is); per spec sections 4.2 and
7, each call type steps Idle → Issued (RunAsync) → Completed (Wait), a Wait
without a matching prior RunAsync returns false, and device-reported errors
surface through the same exception channel as setup errors, tagged with the
error code.  Only the INIT (SETUP) call type is needed here. -/
structure ExecutionObject where
  device_index : Nat
  initIssued : Bool
  initDone : Bool
deriving DecidableEq, Repr

/-- Per-ExecutionObject environment for the INIT call: the enqueue error code
and the error code the device reports at INIT completion. -/
structure EOEnv where
  enqueueErr : Int
  deviceErrorCode : Int
deriving DecidableEq, Repr

/-- Modelled from the spec: ExecutionObject::RunAsync(INIT) — enqueue the
setup kernel (errorChecked) and mark INIT issued. -/
def ExecutionObject.RunAsyncInit (eo : ExecutionObject) (env : EOEnv) :
    Outcome ExecutionObject :=
  Outcome.bind (errorCheck env.enqueueErr) (fun _ =>
    .ok { eo with initIssued := true })

/-- Modelled from the spec: ExecutionObject::Wait(INIT) — false when nothing
is in flight; otherwise block, and surface a nonzero device-reported error
code as a thrown Exception tagged with it, else mark INIT complete and return
true. -/
def ExecutionObject.WaitInit (eo : ExecutionObject) (env : EOEnv) :
    Outcome (Bool × ExecutionObject) :=
  if eo.initIssued && !eo.initDone then
    if env.deviceErrorCode ≠ OCL_TIDL_SUCCESS then
      .thrown (Exception.ofCode env.deviceErrorCode EXECUTOR_FILE FUNC_Wait 0)
    else .ok (true, { eo with initDone := true })
  else .ok (false, eo)

/-- Effectful map over a list, stopping at the first non-ok outcome — the
shape of the per-EO loops in ExecutorImpl::Initialize. -/
def mapOutcome {α β : Type} (f : α → Outcome β) : List α → Outcome (List β)
  | [] => .ok []
  | a :: as =>
      Outcome.bind (f a) (fun b =>
      Outcome.bind (mapOutcome f as) (fun bs => .ok (b :: bs)))

/-- Environment for ExecutorImpl::Initialize: whether
ReadBinary(netBinFile) succeeds (assert aborts otherwise), the layer table it
reads, the setup-kernel environment, the error code of the OpenCL calls made
while constructing each EO's kernels, and the per-device-id INIT
environment. -/
structure InitEnv where
  readNetOk : Bool
  netLayers : List TIDLLayer
  setup : SetupEnv
  eoCtorErr : Int
  eoEnvs : List EOEnv
deriving DecidableEq, Repr

/-- The executor state Initialize builds: the (possibly overridden) network
layer table and execution_objects_m. -/
structure ExecutorState where
  net : List TIDLLayer
  execution_objects_m : List ExecutionObject
deriving DecidableEq, Repr

/-- ExecutorImpl::Initialize (part_000 lines 71-125): read the network
description (assert), apply the runFullNet override, run the setup kernel via
InitializeNetworkParams (which may throw), construct one ExecutionObject per
requested device id, then RunAsync(INIT) on every EO and Wait(INIT) on every
EO, in two separate loops, before returning. -/
def ExecutorImpl.Initialize (device_ids : List Nat)
    (configuration : Configuration) (layers_group_id : Int) (env : InitEnv) :
    Outcome ExecutorState :=
  if !env.readNetOk then .aborted
  else
    let net := forceFullNet configuration.runFullNet layers_group_id
                 env.netLayers
    Outcome.bind (ExecutorImpl.InitializeNetworkParams env.setup) (fun _ =>
    Outcome.bind (mapOutcome (fun (id : Nat) =>
        Outcome.bind (errorCheck env.eoCtorErr) (fun _ =>
          .ok ({ device_index := id, initIssued := false,
                 initDone := false } : ExecutionObject)))
        device_ids) (fun eos0 =>
    Outcome.bind (mapOutcome (fun (eo : ExecutionObject) =>
        eo.RunAsyncInit (env.eoEnvs.getD eo.device_index ⟨0, 0⟩))
        eos0) (fun eos1 =>
    Outcome.bind (mapOutcome (fun (eo : ExecutionObject) =>
        Outcome.bind (eo.WaitInit (env.eoEnvs.getD eo.device_index ⟨0, 0⟩))
          (fun r => .ok r.2))
        eos1) (fun eos2 =>
    .ok { net := net, execution_objects_m := eos2 }))))

/-- Environment for full Executor construction. -/
structure ExecEnv where
  dev : DevEnv
  init : InitEnv
deriving DecidableEq, Repr

/-- Executor::Executor (part_000 lines 13-19) together with the ExecutorImpl
constructor (lines 48-63): build the Device via Device::Create, then run
Initialize; any Outcome other than ok propagates to the caller of the
constructor. -/
def Executor.construct (core_type : DeviceType) (ids : List Nat)
    (configuration : Configuration) (layers_group_id : Int) (env : ExecEnv) :
    Outcome ExecutorState :=
  Outcome.bind (Device.Create core_type ids env.dev) (fun _ =>
    ExecutorImpl.Initialize ids configuration layers_group_id env.init)

/-- An environment in which the DSP device is found (a single one, with one
compute unit) and every OpenCL call of device construction succeeds except
clBuildProgram, which fails with CL_BUILD_PROGRAM_FAILURE (-11). -/
def dspBuildFailEnv : DevEnv :=
  { getDeviceIDsErr := 0, num_devices_found := 1, num_compute_units := 1,
    createContextErr := 0, createQueueErr := 0, subDevQueryErr := 0,
    n_sub_devices := 2, createSubDevErr := 0, createProgramErr := 0,
    buildProgramErr := -11, freqErr := 0, contextId := 1 }

/-- A DevEnv in which everything succeeds: one DSP device with two compute
units (so the sub-partitioning path runs), two EVE devices, context id 1. -/
def cleanDevEnv : DevEnv :=
  { getDeviceIDsErr := 0, num_devices_found := 1, num_compute_units := 2,
    createContextErr := 0, createQueueErr := 0, subDevQueryErr := 0,
    n_sub_devices := 2, createSubDevErr := 0, createProgramErr := 0,
    buildProgramErr := 0, freqErr := 0, contextId := 1 }

/-- An environment in which everything succeeds: two EVE devices, an empty
layer table, a clean setup run, and clean INIT runs on both EOs. -/
def cleanExecEnv : ExecEnv :=
  ⟨{ cleanDevEnv with num_devices_found := 2 },
   ⟨true, [⟨7, 3⟩, ⟨0, 3⟩], ⟨true, 0, 0, 0, 0, 0, 0⟩, 0, [⟨0, 0⟩, ⟨0, 0⟩]⟩⟩

/-- C1: for every context slot, Kernel::Wait(contextSlot) with no completion
handle stored at that slot (nullptr) returns false immediately: no OpenCL call
is made, so it cannot block, throw or exit, and the completion-handle table
and all other kernel state are returned unchanged. -/
theorem kernel_wait_unpopulated_slot_noop (k : Kernel) (env : WaitEnv)
    (context_idx : Nat) (h : k.event_m.getD context_idx none = none) :
    Kernel.Wait k env context_idx = .ok (false, k) := by
  unfold Kernel.Wait
  rw [h]

theorem kernel_wait_unpopulated_slot_noop_witness :
    Kernel.init.event_m.getD 0 none = none ∧
    Kernel.Wait Kernel.init ⟨-5, -5⟩ 0 = .ok (false, Kernel.init) :=
  ⟨by decide,
   kernel_wait_unpopulated_slot_noop Kernel.init ⟨-5, -5⟩ 0 (by decide)⟩

/-- C10: Kernel::Wait is one-shot per enqueue.  After RunAsync(contextSlot)
and a successful Wait(contextSlot) returning true, the stored handle is
released and the slot reset to nullptr, so a second Wait on the same slot
without an intervening RunAsync returns false and changes nothing. -/
theorem kernel_wait_one_shot (k : Kernel) (renv : RunEnv) (wenv : WaitEnv)
    (context_idx : Nat) (hidx : context_idx < k.event_m.length)
    (hrun : renv.enqueueErr = CL_SUCCESS)
    (hwait : wenv.waitErr = CL_SUCCESS)
    (hrel : wenv.releaseErr = CL_SUCCESS) :
    ∃ k1 k2,
      Kernel.RunAsync k renv context_idx = .ok k1 ∧
      Kernel.Wait k1 wenv context_idx = .ok (true, k2) ∧
      k2.event_m.getD context_idx none = none ∧
      Kernel.Wait k2 wenv context_idx = .ok (false, k2) := by
  have hget1 : (k.event_m.set context_idx (some renv.event)).getD
      context_idx none = some renv.event := by
    simp [List.getD, List.getElem?_set_eq_of_lt _ hidx]
  have hget2 : ((k.event_m.set context_idx (some renv.event)).set
      context_idx none).getD context_idx none = none := by
    simp [List.getD, List.getElem?_set_eq_of_lt _ hidx]
  refine ⟨{ event_m := k.event_m.set context_idx (some renv.event) },
          { event_m := (k.event_m.set context_idx (some renv.event)).set
                          context_idx none }, ?_, ?_, hget2, ?_⟩
  · simp [Kernel.RunAsync, errorCheck, hrun, Outcome.bind]
  · unfold Kernel.Wait
    rw [hget1]
    simp [errorCheck, hwait, hrel, Outcome.bind]
  · unfold Kernel.Wait
    rw [hget2]

theorem kernel_wait_one_shot_witness :
    0 < Kernel.init.event_m.length ∧
    (⟨0, 7⟩ : RunEnv).enqueueErr = CL_SUCCESS ∧
    (⟨0, 0⟩ : WaitEnv).waitErr = CL_SUCCESS ∧
    (⟨0, 0⟩ : WaitEnv).releaseErr = CL_SUCCESS ∧
    (∃ k1 k2,
      Kernel.RunAsync Kernel.init ⟨0, 7⟩ 0 = .ok k1 ∧
      Kernel.Wait k1 ⟨0, 0⟩ 0 = .ok (true, k2) ∧
      k2.event_m.getD 0 none = none ∧
      Kernel.Wait k2 ⟨0, 0⟩ 0 = .ok (false, k2)) :=
  ⟨by decide, by decide, by decide, by decide,
   kernel_wait_one_shot Kernel.init ⟨0, 7⟩ ⟨0, 0⟩ 0 (by decide) (by decide)
     (by decide) (by decide)⟩

/-- C6: Device::CreateBuffer returns a null handle iff the argument descriptor
has no backing host pointer; with a host pointer it creates a buffer bound
zero-copy (use-host-pointer) when the pointer is in device-visible CMEM memory
and copy-in otherwise.  The policy is a function only of the pointer's
residency — CreateBuffer takes no configuration input. -/
theorem create_buffer_null_iff_no_host_ptr (arg : DeviceArgInfo)
    (createBufferErr : Int) (h : createBufferErr = CL_SUCCESS) :
    (Device.CreateBuffer arg createBufferErr = .ok none ↔ arg.ptr = none) ∧
    (∀ p, arg.ptr = some p →
      Device.CreateBuffer arg createBufferErr =
        .ok (some { binding := if p.inCMEM then .useHostPtr else .copyHostPtr,
                    size := arg.size, host := p })) := by
  constructor
  · constructor
    · intro hok
      cases hp : arg.ptr with
      | none => rfl
      | some p =>
          rw [Device.CreateBuffer, hp] at hok
          simp [errorCheck, h, Outcome.bind] at hok
    · intro hp
      rw [Device.CreateBuffer, hp]
  · intro p hp
    rw [Device.CreateBuffer, hp]
    simp [errorCheck, h, Outcome.bind]

theorem create_buffer_null_iff_no_host_ptr_witness :
    (0 : Int) = CL_SUCCESS ∧
    (Device.CreateBuffer ⟨none, 64⟩ 0 = .ok none ↔
      (⟨none, 64⟩ : DeviceArgInfo).ptr = none) ∧
    Device.CreateBuffer ⟨some ⟨4096, true⟩, 64⟩ 0 =
      .ok (some { binding := .useHostPtr, size := 64, host := ⟨4096, true⟩ }) ∧
    Device.CreateBuffer ⟨some ⟨4096, false⟩, 64⟩ 0 =
      .ok (some { binding := .copyHostPtr, size := 64, host := ⟨4096, false⟩ }) :=
  ⟨rfl,
   (create_buffer_null_iff_no_host_ptr ⟨none, 64⟩ 0 rfl).1,
   by
     have h := (create_buffer_null_iff_no_host_ptr ⟨some ⟨4096, true⟩, 64⟩ 0
        rfl).2 ⟨4096, true⟩ rfl
     simpa using h,
   by
     have h := (create_buffer_null_iff_no_host_ptr ⟨some ⟨4096, false⟩, 64⟩ 0
        rfl).2 ⟨4096, false⟩ rfl
     simpa using h⟩

/-- C5 (code bug): the first call returns the documented
<major>.<minor>.<patch>.<build-sha> string, but a second call appends the
build sha again and returns a different string, contradicting the claim (and
the header doc) that every call returns the same version string. -/
theorem get_api_version_second_call_differs :
    (Executor.GetAPIVersion BUILD_VER).1 = "01.01.00.00.a1b2c3d" ∧
    (Executor.GetAPIVersion (Executor.GetAPIVersion BUILD_VER).2).1 =
      "01.01.00.00.a1b2c3d.a1b2c3d" ∧
    (Executor.GetAPIVersion (Executor.GetAPIVersion BUILD_VER).2).1 ≠
      (Executor.GetAPIVersion BUILD_VER).1 := by
  refine ⟨rfl, rfl, ?_⟩
  decide

/-- C4 (code bug): on an unsupported platform whose version string lacks
"01.", Device::GetNumDevices does not return 0 — CheckOpenCLVersion evaluates
v.substr(v.find("01."), 12) with find = npos, and the std::out_of_range that
substr throws escapes from GetNumDevices, for both device classes. -/
theorem get_num_devices_throws_on_unsupported_platform :
    Device.GetNumDevices desktopPlatform ⟨0, 2, 0, 2⟩ DeviceType.DSP =
      .stdThrown substrOutOfRangeWhat ∧
    Device.GetNumDevices desktopPlatform ⟨0, 2, 0, 2⟩ DeviceType.EVE =
      .stdThrown substrOutOfRangeWhat := by
  constructor <;> decide

theorem setQueues_length (ids : List Nat) (ctx : Nat) (t : Nat → QueueTarget)
    (qs : List (Option CommandQueue)) :
    (setQueues ids ctx t qs).length = qs.length := by
  induction ids generalizing qs with
  | nil => rfl
  | cons id rest ih => simp [setQueues, ih]

theorem createQueues_ok (ids : List Nat) (ctx : Nat) (t : Nat → QueueTarget)
    (qs : List (Option CommandQueue)) :
    createQueues ids ctx t CL_SUCCESS qs = .ok (setQueues ids ctx t qs) := by
  induction ids generalizing qs with
  | nil => rfl
  | cons id rest ih => simp [createQueues, setQueues, errorCheck, Outcome.bind, ih]

theorem setQueues_getD (ids : List Nat) (ctx : Nat) (t : Nat → QueueTarget)
    (qs : List (Option CommandQueue)) (j : Nat)
    (hids : ∀ i ∈ ids, i < qs.length) :
    (setQueues ids ctx t qs).getD j none =
      if j ∈ ids then some ⟨ctx, t j⟩ else qs.getD j none := by
  induction ids generalizing qs with
  | nil => simp [setQueues]
  | cons id rest ih =>
      have hid : id < qs.length := hids id (by simp)
      have hrest : ∀ i ∈ rest, i < (qs.set id (some ⟨ctx, t id⟩)).length := by
        intro i hi
        simpa using hids i (by simp [hi])
      rw [setQueues, ih _ hrest]
      by_cases hjr : j ∈ rest
      · simp [hjr]
      · by_cases hji : j = id
        · subst hji
          simp [hjr, List.getD, List.getElem?_set_eq_of_lt _ hid]
        · simp [hjr, hji, List.getD,
                List.getElem?_set_ne (fun h => hji h.symm)]

theorem Outcome.bind_eq_ok {α β : Type} {x : Outcome α} {f : α → Outcome β}
    {b : β} (h : Outcome.bind x f = .ok b) : ∃ a, x = .ok a ∧ f a = .ok b := by
  cases x with
  | ok a => exact ⟨a, rfl, h⟩
  | thrown e => exact absurd h (by simp [Outcome.bind])
  | stdThrown w => exact absurd h (by simp [Outcome.bind])
  | exited c => exact absurd h (by simp [Outcome.bind])
  | aborted => exact absurd h (by simp [Outcome.bind])

theorem mapOutcome_ok_length {α β : Type} (f : α → Outcome β) (l : List α)
    (res : List β) (h : mapOutcome f l = .ok res) : res.length = l.length := by
  induction l generalizing res with
  | nil =>
      rw [mapOutcome] at h
      cases h
      rfl
  | cons a as ih =>
      rw [mapOutcome] at h
      obtain ⟨b, hb, h⟩ := Outcome.bind_eq_ok h
      obtain ⟨bs, hbs, h⟩ := Outcome.bind_eq_ok h
      cases h
      simp [ih bs hbs]

theorem mapOutcome_ok_forall {α β : Type} (f : α → Outcome β) (Q : α → Prop)
    (P : β → Prop) (hf : ∀ a b, Q a → f a = .ok b → P b) (l : List α)
    (res : List β) (hQ : ∀ a ∈ l, Q a) (h : mapOutcome f l = .ok res) :
    ∀ b ∈ res, P b := by
  induction l generalizing res with
  | nil =>
      rw [mapOutcome] at h
      cases h
      intro b hb
      exact absurd hb (by simp)
  | cons a as ih =>
      rw [mapOutcome] at h
      obtain ⟨b, hb, h⟩ := Outcome.bind_eq_ok h
      obtain ⟨bs, hbs, h⟩ := Outcome.bind_eq_ok h
      cases h
      intro c hc
      rcases List.mem_cons.mp hc with hc | hc
      · subst hc
        exact hf a c (hQ a (by simp)) hb
      · exact ih bs (fun x hx => hQ x (by simp [hx])) hbs c hc

/-- C3 counterexample: a program build failure during DSP device setup is not
reported as a thrown exception — clBuildProgram's error code goes through
errorCheck, which terminates the process with exit(-11)
(CL_BUILD_PROGRAM_FAILURE).  The construction outcome is exited, not
thrown. -/
theorem dsp_build_failure_exits_process :
    DspDevice.construct [0] dspBuildFailEnv = .exited (-11) := by decide

/-- C3 (amended): fatal setup errors detected by the engine itself are thrown
as Exception values carrying a human-readable message plus source location
(file, function, line) and are propagated without any internal retry: the
device-count mismatch throws "OpenCL DSP device not found", and a nonzero
device-reported setup error code throws the Exception built from that code.
OpenCL API failures, however — program build failure among them — are routed
through errorCheck, which prints the error and exits the process with the
failing call's code instead of throwing. -/
theorem fatal_setup_error_reporting (ids : List Nat) (env : DevEnv)
    (senv : SetupEnv) (hids : env.getDeviceIDsErr = CL_SUCCESS)
    (hread : senv.readParamsOk = true)
    (hk : senv.createKernelErr = CL_SUCCESS)
    (hbuf : senv.createBufferErr = CL_SUCCESS)
    (he : senv.enqueueErr = CL_SUCCESS) (hw : senv.waitErr = CL_SUCCESS)
    (hr : senv.releaseErr = CL_SUCCESS) :
    (env.num_devices_found ≠ 1 →
      DspDevice.construct ids env =
        .thrown (Exception.ofString dspNotFoundError OCL_DEVICE_FILE
                   FUNC_DspDevice 72) ∧
      (Exception.ofString dspNotFoundError OCL_DEVICE_FILE
          FUNC_DspDevice 72).message_m =
        "TIDL Error: [ocl_device.cpp, DspDevice, 72]: OpenCL DSP device not found") ∧
    (senv.errorCode ≠ OCL_TIDL_SUCCESS →
      ExecutorImpl.InitializeNetworkParams senv =
        .thrown (Exception.ofCode senv.errorCode EXECUTOR_FILE
                   FUNC_InitNetworkParams 173)) ∧
    (env.num_devices_found = 1 → env.num_compute_units = 1 →
      env.createContextErr = CL_SUCCESS → env.createQueueErr = CL_SUCCESS →
      env.createProgramErr = CL_SUCCESS →
      env.buildProgramErr ≠ CL_SUCCESS →
      DspDevice.construct ids env = .exited env.buildProgramErr) := by
  refine ⟨?_, ?_, ?_⟩
  · intro hnf
    refine ⟨?_, by decide⟩
    simp [DspDevice.construct, errorCheck, hids, hnf, Outcome.bind]
  · intro hcode
    simp [ExecutorImpl.InitializeNetworkParams, hread, errorCheck, hk, hbuf,
          he, hw, hr, Outcome.bind, Kernel.RunAsync, Kernel.Wait, Kernel.init,
          NUM_CONTEXTS, hcode]
  · intro hnf hcu hctx hq hcp hbp
    simp [DspDevice.construct, DspDevice.BuildProgramFromBinary, errorCheck,
          hids, hnf, hcu, hctx, hq, hcp, hbp, Outcome.bind]

theorem fatal_setup_error_reporting_witness :
    ((3 : Nat) ≠ 1 ∧
      DspDevice.construct [0]
          { dspBuildFailEnv with num_devices_found := 3 } =
        .thrown (Exception.ofString dspNotFoundError OCL_DEVICE_FILE
                   FUNC_DspDevice 72)) ∧
    (ExecutorImpl.InitializeNetworkParams ⟨true, 0, 0, 0, 0, 0, 5⟩ =
      .thrown (Exception.ofCode 5 EXECUTOR_FILE FUNC_InitNetworkParams
                 173)) ∧
    (DspDevice.construct [0] dspBuildFailEnv = .exited (-11)) :=
  ⟨⟨by decide,
    ((fatal_setup_error_reporting [0]
        { dspBuildFailEnv with num_devices_found := 3 } ⟨true, 0, 0, 0, 0, 0, 5⟩
        rfl rfl rfl rfl rfl rfl rfl).1 (by decide)).1⟩,
   (fatal_setup_error_reporting [0] dspBuildFailEnv ⟨true, 0, 0, 0, 0, 0, 5⟩
      rfl rfl rfl rfl rfl rfl rfl).2.1 (by decide),
   (fatal_setup_error_reporting [0] dspBuildFailEnv ⟨true, 0, 0, 0, 0, 0, 5⟩
      rfl rfl rfl rfl rfl rfl rfl).2.2 rfl rfl rfl rfl rfl (by decide)⟩

/-- C7: after the one-time setup kernel runs, a nonzero
setupParams->errorCode makes initialization throw the Exception built from
exactly that code (so the create-params-mismatch code produces the
host/device struct-definition-inconsistency message, reproduced below with
the source's missing space), and a zero error code throws nothing. -/
theorem initialize_network_params_error_code (env : SetupEnv)
    (hread : env.readParamsOk = true)
    (hk : env.createKernelErr = CL_SUCCESS)
    (hbuf : env.createBufferErr = CL_SUCCESS)
    (he : env.enqueueErr = CL_SUCCESS) (hw : env.waitErr = CL_SUCCESS)
    (hr : env.releaseErr = CL_SUCCESS) :
    (env.errorCode ≠ OCL_TIDL_SUCCESS →
      ExecutorImpl.InitializeNetworkParams env =
        .thrown (Exception.ofCode env.errorCode EXECUTOR_FILE
                   FUNC_InitNetworkParams 173)) ∧
    (env.errorCode = OCL_TIDL_SUCCESS →
      ExecutorImpl.InitializeNetworkParams env = .ok ()) ∧
    (Exception.ofCode OCL_TIDL_CREATE_PARAMS_MISMATCH EXECUTOR_FILE
        FUNC_InitNetworkParams 173).message_m =
      "TIDL Error: [executor.cpp, InitializeNetworkParams, 173]: " ++
        "TIDL_CreateParams definition inconsistent across hostand device." := by
  refine ⟨?_, ?_, by decide⟩ <;>
    intro hcode <;>
    simp [ExecutorImpl.InitializeNetworkParams, hread, errorCheck, hk, hbuf,
          he, hw, hr, Outcome.bind, Kernel.RunAsync, Kernel.Wait, Kernel.init,
          NUM_CONTEXTS, hcode]

theorem initialize_network_params_error_code_witness :
    ((5 : Int) ≠ OCL_TIDL_SUCCESS ∧
      ExecutorImpl.InitializeNetworkParams ⟨true, 0, 0, 0, 0, 0, 5⟩ =
        .thrown (Exception.ofCode 5 EXECUTOR_FILE FUNC_InitNetworkParams
                   173)) ∧
    ExecutorImpl.InitializeNetworkParams ⟨true, 0, 0, 0, 0, 0, 0⟩ = .ok () :=
  ⟨⟨by decide,
    (initialize_network_params_error_code ⟨true, 0, 0, 0, 0, 0, 5⟩
        rfl rfl rfl rfl rfl rfl).1 (by decide)⟩,
   (initialize_network_params_error_code ⟨true, 0, 0, 0, 0, 0, 0⟩
      rfl rfl rfl rfl rfl rfl).2.1 rfl⟩

/-- C8: with runFullNet enabled, the override leaves the layer count
unchanged, rewrites every non-data layer's layersGroupId to the caller's
layers_group_id (preserving its other fields), and leaves every data (input)
layer entirely unchanged; with runFullNet disabled it modifies nothing.
ExecutorImpl::Initialize applies exactly this transformation to the loaded
network (see its definition). -/
theorem force_full_net_override (gid : Int) (layers : List TIDLLayer)
    (dfl : TIDLLayer) :
    (forceFullNet true gid layers).length = layers.length ∧
    (∀ i, i < layers.length →
      ((layers.getD i dfl).layerType ≠ TIDL_DataLayer →
        (forceFullNet true gid layers).getD i dfl =
          { layerType := (layers.getD i dfl).layerType,
            layersGroupId := gid }) ∧
      ((layers.getD i dfl).layerType = TIDL_DataLayer →
        (forceFullNet true gid layers).getD i dfl = layers.getD i dfl)) ∧
    forceFullNet false gid layers = layers := by
  refine ⟨by simp [forceFullNet], ?_, by simp [forceFullNet]⟩
  intro i hi
  have hlen : i < (forceFullNet true gid layers).length := by
    simpa [forceFullNet] using hi
  rw [List.getD_eq_getElem _ dfl hlen, List.getD_eq_getElem _ dfl hi]
  constructor <;> intro hty <;>
    simp [forceFullNet, List.getElem_map, hty]

theorem force_full_net_override_witness :
    (0 : Nat) < ([⟨7, 3⟩, ⟨0, 3⟩] : List TIDLLayer).length ∧
    (([⟨7, 3⟩, ⟨0, 3⟩] : List TIDLLayer).getD 0 ⟨9, 9⟩).layerType ≠
      TIDL_DataLayer ∧
    (forceFullNet true 11 [⟨7, 3⟩, ⟨0, 3⟩]).getD 0 ⟨9, 9⟩ =
      { layerType := 7, layersGroupId := 11 } :=
  ⟨by decide, by decide,
   ((force_full_net_override 11 [⟨7, 3⟩, ⟨0, 3⟩] ⟨9, 9⟩).2.1 0
      (by decide)).1 (by decide)⟩

theorem emptyQueues_getElem? (j : Nat) : (emptyQueues[j]?).getD none = none := by
  simp only [emptyQueues, List.getElem?_replicate]
  by_cases h : j < MAX_DEVICES <;> simp [h]

theorem emptyQueues_getD (j : Nat) : emptyQueues.getD j none = none := by
  rw [List.getD_eq_getElem?_getD]
  exact emptyQueues_getElem? j

theorem set0_getD (q : CommandQueue) (j : Nat) :
    (emptyQueues.set 0 (some q)).getD j none =
      if j = 0 then some q else none := by
  by_cases hj : j = 0
  · subst hj
    simp [List.getD, List.getElem?_set_eq_of_lt _
            (show 0 < emptyQueues.length by decide)]
  · rw [if_neg hj]
    have hne : (emptyQueues.set 0 (some q))[j]? = emptyQueues[j]? :=
      List.getElem?_set_ne (fun h => hj h.symm)
    rw [List.getD_eq_getElem?_getD, hne]
    exact emptyQueues_getElem? j

/-- C9: with every OpenCL call succeeding and a valid request, device
creation opens exactly one command queue per requested unit id and no others,
all inside the single created context.  DSP: exactly one physical device is
required; with one compute unit the single queue sits on the device itself,
with several the device is sub-partitioned and the queue for each requested
id sits on sub-device id.  EVE: the queue for each requested logical id sits
on physical device id — a 1:1 mapping. -/
theorem device_create_one_queue_per_requested_unit (ids : List Nat)
    (env : DevEnv) (hclean : env.clean) (hne : ids ≠ []) :
    (env.num_devices_found = 1 → env.n_sub_devices = 2 →
      (∀ i ∈ ids, i < (if env.num_compute_units = 1 then 1 else 2)) →
      ∃ st, DspDevice.construct ids env = .ok st ∧
        st.context_m = env.contextId ∧
        st.queue_m.length = MAX_DEVICES ∧
        (∀ j, (st.queue_m.getD j none).isSome = true ↔ j ∈ ids) ∧
        (∀ j q, st.queue_m.getD j none = some q →
          q.context = env.contextId ∧
          q.target = (if env.num_compute_units = 1 then QueueTarget.device 0
                      else QueueTarget.subDevice j))) ∧
    (ids.length ≤ env.num_devices_found →
      (∀ i ∈ ids, i < MAX_DEVICES) →
      ∃ st, EveDevice.construct ids env = .ok st ∧
        st.context_m = env.contextId ∧
        st.queue_m.length = MAX_DEVICES ∧
        (∀ j, (st.queue_m.getD j none).isSome = true ↔ j ∈ ids) ∧
        (∀ j q, st.queue_m.getD j none = some q →
          q.context = env.contextId ∧ q.target = QueueTarget.device j)) := by
  obtain ⟨h1, h2, h3, h4, h5, h6, h7, h8⟩ := hclean
  constructor
  · intro hfound hnsub hvalid
    by_cases hcu : env.num_compute_units = 1
    · have hids0 : ∀ i ∈ ids, i = 0 := by
        intro i hi
        have hlt := hvalid i hi
        rw [if_pos hcu] at hlt
        omega
      have h0mem : 0 ∈ ids := by
        cases ids with
        | nil => exact absurd rfl hne
        | cons a t =>
            have ha := hids0 a (by simp)
            rw [← ha]
            exact List.mem_cons_self a t
      refine ⟨⟨env.contextId,
               emptyQueues.set 0 (some ⟨env.contextId, QueueTarget.device 0⟩)⟩,
              ?_, rfl, ?_, ?_, ?_⟩
      · simp [DspDevice.construct, DspDevice.BuildProgramFromBinary,
              errorCheck, h1, h2, h3, h6, h7, h8, hfound, hcu, Outcome.bind]
      · simp [emptyQueues]
      · intro j
        rw [set0_getD]
        by_cases hj : j = 0
        · subst hj
          simp [h0mem]
        · simp only [if_neg hj, Option.isSome_none]
          constructor
          · intro hfalse
            exact absurd hfalse (by simp)
          · intro hmem
            exact absurd (hids0 j hmem) hj
      · intro j q hq
        rw [set0_getD] at hq
        by_cases hj : j = 0
        · rw [if_pos hj] at hq
          cases hq
          exact ⟨rfl, by rw [if_pos hcu]⟩
        · rw [if_neg hj] at hq
          exact absurd hq (by simp)
    · have hids2 : ∀ i ∈ ids, i < emptyQueues.length := by
        intro i hi
        have hlt := hvalid i hi
        rw [if_neg hcu] at hlt
        simp only [emptyQueues, List.length_replicate, MAX_DEVICES]
        omega
      refine ⟨⟨env.contextId,
               setQueues ids env.contextId QueueTarget.subDevice emptyQueues⟩,
              ?_, rfl, ?_, ?_, ?_⟩
      · simp [DspDevice.construct, DspDevice.BuildProgramFromBinary,
              errorCheck, h1, h2, h3, h4, h5, h6, h7, h8, hfound, hcu, hnsub,
              createQueues_ok, Outcome.bind]
      · simp [setQueues_length, emptyQueues]
      · intro j
        rw [setQueues_getD _ _ _ _ _ hids2]
        by_cases hj : j ∈ ids <;> simp [hj, emptyQueues_getD, emptyQueues_getElem?]
      · intro j q hq
        rw [setQueues_getD _ _ _ _ _ hids2] at hq
        by_cases hj : j ∈ ids
        · rw [if_pos hj] at hq
          cases hq
          exact ⟨rfl, by rw [if_neg hcu]⟩
        · rw [if_neg hj, emptyQueues_getD] at hq
          exact absurd hq (by simp)
  · intro hfound hvalid
    have hids2 : ∀ i ∈ ids, i < emptyQueues.length := by
      intro i hi
      simpa [emptyQueues] using hvalid i hi
    refine ⟨⟨env.contextId,
             setQueues ids env.contextId QueueTarget.device emptyQueues⟩,
            ?_, rfl, ?_, ?_, ?_⟩
    · simp [EveDevice.construct, EveDevice.BuildProgramFromBinary,
            errorCheck, h1, h2, h3, h6, h8, Nat.not_lt.mpr hfound,
            createQueues_ok, Outcome.bind]
    · simp [setQueues_length, emptyQueues]
    · intro j
      rw [setQueues_getD _ _ _ _ _ hids2]
      by_cases hj : j ∈ ids <;> simp [hj, emptyQueues_getD, emptyQueues_getElem?]
    · intro j q hq
      rw [setQueues_getD _ _ _ _ _ hids2] at hq
      by_cases hj : j ∈ ids
      · rw [if_pos hj] at hq
        cases hq
        exact ⟨rfl, rfl⟩
      · rw [if_neg hj, emptyQueues_getD] at hq
        exact absurd hq (by simp)

theorem device_create_one_queue_per_requested_unit_witness :
    (∃ st, DspDevice.construct [0, 1] cleanDevEnv = .ok st ∧
      st.context_m = cleanDevEnv.contextId ∧
      st.queue_m.length = MAX_DEVICES ∧
      (∀ j, (st.queue_m.getD j none).isSome = true ↔ j ∈ [0, 1]) ∧
      (∀ j q, st.queue_m.getD j none = some q →
        q.context = cleanDevEnv.contextId ∧
        q.target = (if cleanDevEnv.num_compute_units = 1 then
                      QueueTarget.device 0 else QueueTarget.subDevice j))) ∧
    (∃ st, EveDevice.construct [1]
        { cleanDevEnv with num_devices_found := 2 } = .ok st ∧
      st.context_m = cleanDevEnv.contextId ∧
      st.queue_m.length = MAX_DEVICES ∧
      (∀ j, (st.queue_m.getD j none).isSome = true ↔ j ∈ [1]) ∧
      (∀ j q, st.queue_m.getD j none = some q →
        q.context = cleanDevEnv.contextId ∧
        q.target = QueueTarget.device j)) :=
  ⟨(device_create_one_queue_per_requested_unit [0, 1] cleanDevEnv
      ⟨rfl, rfl, rfl, rfl, rfl, rfl, rfl, rfl⟩ (by decide)).1 rfl rfl
      (by decide),
   (device_create_one_queue_per_requested_unit [1]
      { cleanDevEnv with num_devices_found := 2 }
      ⟨rfl, rfl, rfl, rfl, rfl, rfl, rfl, rfl⟩ (by decide)).2 (by decide)
      (by decide)⟩

/-- C2 counterexample: Executor construction has outcomes that neither
complete nor throw.  With the DSP device present but its program build
failing, Device::Create (inside the ExecutorImpl constructor) reaches
errorCheck, which exits the process with the OpenCL error code — so
"either completes or throws a fatal-setup exception" does not hold as
stated. -/
theorem executor_construct_can_exit_process :
    Executor.construct DeviceType.DSP [0] ⟨false⟩ 1
        ⟨dspBuildFailEnv, ⟨true, [], ⟨true, 0, 0, 0, 0, 0, 0⟩, 0, []⟩⟩ =
      .exited (-11) := by decide

/-- C2 (amended): whenever Executor construction returns normally, the
Executor owns exactly one ExecutionObject per requested unit id, and every
one of them has had its SETUP (INIT) call issued and waited to completion
before the constructor returned; every failing path instead throws a
fatal-setup exception or terminates the process (exit on an OpenCL API
failure, abort on a failed assert) — a partially-initialized Executor is
never returned. -/
theorem executor_construct_no_partial_init (core_type : DeviceType)
    (ids : List Nat) (configuration : Configuration) (layers_group_id : Int)
    (env : ExecEnv) (st : ExecutorState)
    (h : Executor.construct core_type ids configuration layers_group_id env =
          .ok st) :
    st.execution_objects_m.length = ids.length ∧
    ∀ eo ∈ st.execution_objects_m,
      eo.initIssued = true ∧ eo.initDone = true := by
  rw [Executor.construct] at h
  obtain ⟨_, _, h⟩ := Outcome.bind_eq_ok h
  rw [ExecutorImpl.Initialize] at h
  by_cases hread : env.init.readNetOk
  · rw [if_neg (by simp [hread])] at h
    obtain ⟨_, _, h⟩ := Outcome.bind_eq_ok h
    obtain ⟨eos0, heos0, h⟩ := Outcome.bind_eq_ok h
    obtain ⟨eos1, heos1, h⟩ := Outcome.bind_eq_ok h
    obtain ⟨eos2, heos2, h⟩ := Outcome.bind_eq_ok h
    cases h
    have hlen0 := mapOutcome_ok_length _ _ _ heos0
    have hlen1 := mapOutcome_ok_length _ _ _ heos1
    have hlen2 := mapOutcome_ok_length _ _ _ heos2
    have hissued : ∀ eo ∈ eos1, eo.initIssued = true := by
      refine mapOutcome_ok_forall _ (fun _ => True)
        (fun eo => eo.initIssued = true) ?_ eos0 eos1 (fun _ _ => trivial)
        heos1
      intro a b _ hab
      rw [ExecutionObject.RunAsyncInit] at hab
      obtain ⟨_, _, hab⟩ := Outcome.bind_eq_ok hab
      cases hab
      rfl
    have hdone : ∀ eo ∈ eos2, eo.initIssued = true ∧ eo.initDone = true := by
      refine mapOutcome_ok_forall _ (fun eo => eo.initIssued = true)
        (fun eo => eo.initIssued = true ∧ eo.initDone = true) ?_ eos1 eos2
        hissued heos2
      intro a b hQ hab
      obtain ⟨r, hr, hab⟩ := Outcome.bind_eq_ok hab
      cases hab
      rw [ExecutionObject.WaitInit] at hr
      by_cases hin : a.initIssued && !a.initDone
      · rw [if_pos hin] at hr
        by_cases hcode : (env.init.eoEnvs.getD a.device_index
            ⟨0, 0⟩).deviceErrorCode ≠ OCL_TIDL_SUCCESS
        · rw [if_pos hcode] at hr
          exact absurd hr (by simp)
        · rw [if_neg hcode] at hr
          cases hr
          exact ⟨hQ, rfl⟩
      · rw [if_neg hin] at hr
        cases hr
        refine ⟨hQ, ?_⟩
        rw [hQ] at hin
        simpa using hin
    refine ⟨?_, hdone⟩
    show eos2.length = ids.length
    omega
  · rw [if_pos (by simp [hread])] at h
    exact absurd h (by simp)

theorem executor_construct_no_partial_init_witness :
    Executor.construct DeviceType.EVE [0, 1] ⟨true⟩ 1 cleanExecEnv =
      .ok ⟨[⟨7, 1⟩, ⟨0, 3⟩],
           [⟨0, true, true⟩, ⟨1, true, true⟩]⟩ ∧
    (([⟨0, true, true⟩, ⟨1, true, true⟩] : List ExecutionObject).length =
        ([0, 1] : List Nat).length ∧
      ∀ eo ∈ ([⟨0, true, true⟩, ⟨1, true, true⟩] : List ExecutionObject),
        eo.initIssued = true ∧ eo.initDone = true) :=
  ⟨by decide,
   executor_construct_no_partial_init DeviceType.EVE [0, 1] ⟨true⟩ 1
     cleanExecEnv ⟨[⟨7, 1⟩, ⟨0, 3⟩], [⟨0, true, true⟩, ⟨1, true, true⟩]⟩
     (by decide)⟩

end tidl
